import Mathlib

/-!
Verification of the fetch shim in `src/index.mjs` (devlulcas/fetch-gjs).

The shim is one exported factory `makeFetch(session)` returning a fetch-like
function `(url, options) => Promise<Response>`.  We shallowly embed the two
phases of that function:

* `fetchCall` — the synchronous part (lines 22–76): URL validation, method
  normalisation, body coercion, header appending, and construction of the
  `Soup.Message` handed to `session.send_and_read_async`.  Its result
  distinguishes a synchronous throw (before the promise executor runs its
  validation), a promise rejection issued inside the executor, and a
  successfully submitted request.
* `sendAndReadCallback` — the completion callback (lines 80–132): reading the
  response bytes, building the response view, and the try/catch that turns any
  raised error into a rejection.

Host facilities that the source delegates to (URL parse-check, TextEncoder /
TextDecoder, JSON.parse) are parameters of the model; small concrete
stand-ins are provided to instantiate witnesses and counterexamples.

One runtime note recorded here because the embedding depends on it: line 87
reads `bytes?.get_data()?.toString() ?? ""`.  In GJS, `GLib.Bytes.get_data()`
returns a byte array whose `toString()` performs the legacy ByteArray UTF-8
text decoding (GJS preserves this behaviour, with a deprecation warning), so
the model applies the host text decoder to the returned bytes.
-/

namespace FetchGjs

/-- JavaScript runtime values relevant to the shim: the `url` argument and the
`options.body` value.  `vBytes` is a `Uint8Array`, `vObj` any other object. -/
inductive JSValue where
  | vStr (s : String)
  | vBytes (bs : List Nat)
  | vNum (n : Int)
  | vBool (b : Bool)
  | vNull
  | vUndefined
  | vObj (id : Nat)
  deriving DecidableEq

/-- The JavaScript `typeof` operator on the modelled values
(`typeof null` is `"object"`). -/
def typeofJs : JSValue → String
  | .vStr _ => "string"
  | .vBytes _ => "object"
  | .vNum _ => "number"
  | .vBool _ => "boolean"
  | .vNull => "object"
  | .vUndefined => "undefined"
  | .vObj _ => "object"

/-- JavaScript truthiness of the modelled values: `""`, `0`, `false`, `null`
and `undefined` are falsy, every object (including `Uint8Array`) is truthy. -/
def truthy : JSValue → Bool
  | .vStr s => !s.isEmpty
  | .vBytes _ => true
  | .vNum n => decide (n ≠ 0)
  | .vBool b => b
  | .vNull => false
  | .vUndefined => false
  | .vObj _ => true

/-- `options.body` is a string (`typeof options.body === "string"`). -/
def isJsString : JSValue → Bool
  | .vStr _ => true
  | _ => false

/-- `options.body instanceof Uint8Array`. -/
def isUint8Array : JSValue → Bool
  | .vBytes _ => true
  | _ => false

/-- A JavaScript `Error`: its message and its optional `cause` option
(the second argument of the `Error` constructor). -/
structure JsError where
  message : String
  cause : Option JSValue
  deriving DecidableEq

/-- The message of the error thrown at line 26 for an unparseable URL.  The
template only interpolates `typeof url`. -/
def invalidUrlMessage (t : String) : String :=
  "Invalid URL. Expected a string or URL object, got " ++ t ++
    ". This failed because URL.canParse returned false."

/-- The message of the error rejected at line 45 for an unsupported body
type; it interpolates `typeof options.body`. -/
def unsupportedBodyMessage (t : String) : String :=
  "Unsupported body type. Expected a string or Uint8Array, got " ++ t ++ "."

/-- The `options` argument (`RequestInit`): `method` (a string or absent),
`headers` (modelled as its ordered `Object.entries` list, or absent), and
`body` (absent = `undefined`). -/
structure RequestInit where
  methodOpt : Option String
  headersOpt : Option (List (String × String))
  bodyOpt : Option JSValue

/-- The `Soup.Message` as populated by the shim before sending: method, the
normalised URL string, the `request_headers` collection, and the body set by
`set_request_body_from_bytes(contentType, bytes)` (`none` when line 70's
`if (body)` guard was not taken). -/
structure SoupMessage where
  method : String
  url : String
  requestHeaders : List (String × String)
  requestBody : Option (String × List Nat)
  deriving DecidableEq

/-- `Soup.MessageHeaders.append` (and `Headers.append`): adds a new entry at
the end, never replacing an existing one. -/
def headersAppend (hs : List (String × String)) (k v : String) :
    List (String × String) :=
  hs ++ [(k, v)]

/-- The `for (const [key, value] of entries) collection.append(key, value)`
loop (lines 66–68 for the request, lines 91–93 for the response). -/
def appendAll (hs : List (String × String)) (entries : List (String × String)) :
    List (String × String) :=
  entries.foldl (fun acc kv => headersAppend acc kv.1 kv.2) hs

/-- Result of the synchronous phase of one fetch call: a synchronous throw
(line 26, before the promise is constructed), a rejection of the promise from
inside its executor (line 45), or a request submitted to
`session.send_and_read_async` with the fully built message. -/
inductive FetchResult where
  | syncThrow (e : JsError)
  | rejected (e : JsError)
  | sent (msg : SoupMessage)
  deriving DecidableEq

/-- Lines 35: `options.method ? options.method.toUpperCase() : "GET"`
(an absent or empty method string is falsy, hence `"GET"`). -/
def methodOf : Option String → String
  | none => "GET"
  | some m => if m.isEmpty then "GET" else m.toUpper

/-- `Object.entries(options.headers || {})` (line 66): absent headers give the
empty entry list. -/
def entriesOf : Option (List (String × String)) → List (String × String)
  | none => []
  | some hs => hs

/-- Lines 39–53, the body coercion.  The outer `if (options.body)` is a
truthiness gate; inside it a string is used as-is, a `Uint8Array` is decoded
with `new TextDecoder().decode(...)` (parameter `dec`), and anything else
rejects with the unsupported-body error carrying the value as `cause`. -/
def coerceBody (dec : List Nat → String) (b : JSValue) :
    Except JsError (Option String) :=
  if truthy b then
    match b with
    | .vStr s => .ok (some s)
    | .vBytes bs => .ok (some (dec bs))
    | b => .error ⟨unsupportedBodyMessage (typeofJs b), some b⟩
  else
    .ok none

/-- Lines 70–73: `if (body)` (string truthiness) guards
`set_request_body_from_bytes("text/plain", new GLib.Bytes(TextEncoder.encode(body)))`
(parameter `enc` is the UTF-8 encoder). -/
def requestBodyOf (enc : String → List Nat) : Option String →
    Option (String × List Nat)
  | none => none
  | some s => if s.isEmpty then none else some ("text/plain", enc s)

/-- The synchronous phase of the fetch function returned by `makeFetch`
(lines 22–76).  `canParse` is `URL.canParse`, `toUrlString` is
`URL.parse(url).toString()`, `enc`/`dec` are `TextEncoder`/`TextDecoder`.
The unused local `Soup.MessageHeaders` of lines 56–61 is dead code (it is
built with the same append loop but never attached to the message) and is not
modelled separately. -/
def fetchCall (canParse : JSValue → Bool) (toUrlString : JSValue → String)
    (enc : String → List Nat) (dec : List Nat → String)
    (url : JSValue) (options : RequestInit) : FetchResult :=
  if canParse url then
    match coerceBody dec (options.bodyOpt.getD JSValue.vUndefined) with
    | .error e => FetchResult.rejected e
    | .ok body =>
        FetchResult.sent
          ⟨methodOf options.methodOpt, toUrlString url,
            appendAll [] (entriesOf options.headersOpt),
            requestBodyOf enc body⟩
  else
    FetchResult.syncThrow ⟨invalidUrlMessage (typeofJs url), none⟩

/-- What the completion callback observes: the outcome of
`session.send_and_read_finish(res)` — a raised error, or a `GLib.Bytes`
value where the outer `Option` is the `bytes?.` null check and the inner
`Option` is `get_data()?.` (`get_data()` is null for an empty buffer) — plus
the message's status code, reason phrase, and response headers. -/
structure Completion where
  finish : Except JsError (Option (Option (List Nat)))
  statusCode : Nat
  reasonPhrase : String
  responseHeaders : List (String × String)

/-- The minimal Response-like object of lines 99–126, with its buffered
`responseBody` string.  The host container fields (`blob`, `formData`, the
`ReadableStream` body) wrap the same buffered string and are not modelled. -/
structure ResponseView where
  ok : Bool
  status : Nat
  statusText : String
  headers : List (String × String)
  bodyText : String
  redirected : Bool
  type' : String
  url : String
  bodyUsed : Bool
  deriving DecidableEq

/-- `text: async () => responseBody` (line 104): every call returns the same
buffered string. -/
def ResponseView.text (r : ResponseView) : String := r.bodyText

/-- `json: async () => JSON.parse(responseBody)` (line 105): applies the host
`JSON.parse` (parameter, which may fail) to the same buffered string. -/
def ResponseView.json (r : ResponseView)
    (jsonParse : String → Except JsError JSValue) : Except JsError JSValue :=
  jsonParse r.bodyText

/-- `arrayBuffer: async () => new TextEncoder().encode(responseBody)`
(lines 110–112). -/
def ResponseView.arrayBuffer (r : ResponseView) (enc : String → List Nat) :
    List Nat :=
  enc r.bodyText

/-- `clone: () => response` (line 119): returns the very response object the
closure was built over, not a copy. -/
def ResponseView.clone (r : ResponseView) : ResponseView := r

/-- Outcome of the completion callback: the promise resolves with the
response view, or rejects with the caught error. -/
inductive CallbackResult where
  | resolved (r : ResponseView)
  | rejectedWith (e : JsError)
  deriving DecidableEq

/-- The completion callback of lines 80–132.  The callback body runs in a
try/catch whose catch rejects with the caught error unchanged; the only
raise modelled is `send_and_read_finish` itself (the `!session` guard of
line 82 cannot fire, since `makeFetch` already rejected a null session and
the callback receives that same session).  `responseBody` is
`bytes?.get_data()?.toString() ?? ""`, with `toString()` on the byte array
being the host text decoding (see the file comment). -/
def sendAndReadCallback (dec : List Nat → String) (urlString : String)
    (c : Completion) : CallbackResult :=
  match c.finish with
  | .error e => CallbackResult.rejectedWith e
  | .ok bytes =>
      let responseBody : String :=
        match bytes with
        | some (some bs) => dec bs
        | some none => ""
        | none => ""
      CallbackResult.resolved
        ⟨decide (200 ≤ c.statusCode) && decide (c.statusCode < 300),
          c.statusCode, c.reasonPhrase,
          appendAll [] c.responseHeaders, responseBody,
          false, "default", urlString, true⟩

/-- Modelled from the spec: URL parsing/validation is delegated to a standard
URL-parsing facility (spec section 1, out of scope).  This concrete
stand-in accepts exactly the strings of the shape
`<nonempty alphabetic scheme>://<nonempty rest>`; in particular it accepts
ordinary absolute URLs and rejects schemeless strings such as
`"not a url"`, and rejects every non-string value. -/
def schemeAndSep : List Char → Bool
  | ':' :: '/' :: '/' :: rest => !rest.isEmpty
  | c :: rest => c.isAlpha && schemeAndSep rest
  | [] => false

/-- Modelled from the spec: the concrete parse-check stand-in
(see `schemeAndSep`). -/
def canParseSpec : JSValue → Bool
  | .vStr s =>
      match s.data with
      | c :: rest => c.isAlpha && schemeAndSep rest
      | [] => false
  | _ => false

/-- Modelled from the spec: `URL.parse(url).toString()` normalisation is
delegated to the host; this stand-in returns an already-normalised URL
string unchanged (it is only applied to values accepted by
`canParseSpec`). -/
def toUrlStringSpec : JSValue → String
  | .vStr s => s
  | _ => ""

/-- Modelled from the spec: concrete stand-in for the host UTF-8 encoder,
used only to instantiate the abstract `enc` parameter in witnesses
(it agrees with UTF-8 on the ASCII payloads used there). -/
def encSpec (s : String) : List Nat := s.data.map Char.toNat

/-- Modelled from the spec: concrete stand-in for the host text decoder,
used only to instantiate the abstract `dec` parameter in witnesses
(it agrees with UTF-8 on the ASCII payloads used there). -/
def decSpec (bs : List Nat) : String := String.mk (bs.map Char.ofNat)

/-- A concrete successful completion: status 200, body bytes `"hi"`. -/
def complOk : Completion :=
  ⟨Except.ok (some (some [104, 105])), 200, "OK", [("server", "s")]⟩

/-- A concrete completion whose `send_and_read_finish` raised a transport
error. -/
def complErr : Completion :=
  ⟨Except.error ⟨"transport failure", none⟩, 0, "", []⟩

/-- A concrete completion returning a null byte buffer, status 404. -/
def complNull : Completion :=
  ⟨Except.ok none, 404, "Not Found", []⟩

/-- A concrete completion returning a buffer with no data, status 204. -/
def complEmpty : Completion :=
  ⟨Except.ok (some none), 204, "No Content", []⟩

end FetchGjs

namespace FetchGjs

/-- The append loop over a whole entry list concatenates the entries, in
order, after the existing collection. -/
theorem appendAll_eq (l acc : List (String × String)) :
    appendAll acc l = acc ++ l := by
  induction l generalizing acc with
  | nil => simp [appendAll]
  | cons kv t ih =>
      simp only [appendAll, List.foldl_cons] at ih ⊢
      rw [ih]
      simp [headersAppend]

/-- Claim C1: for every successful exchange, the response view's buffered
body text equals the decoded content of the raw byte buffer returned by
`send_and_read_finish`, and `text()` returns exactly that decoded payload on
every call (in the model every call of `ResponseView.text` is the same pure
read of the buffered field). -/
theorem c1_text_is_decoded_buffer (dec : List Nat → String)
    (urlString : String) (c : Completion) (bs : List Nat)
    (h : c.finish = Except.ok (some (some bs))) :
    ∃ r, sendAndReadCallback dec urlString c = CallbackResult.resolved r ∧
      r.bodyText = dec bs ∧ r.text = dec bs := by
  unfold sendAndReadCallback
  rw [h]
  exact ⟨_, rfl, rfl, rfl⟩

/-- Claim C1 witness: a concrete 200 completion with body bytes `"hi"`. -/
theorem c1_text_is_decoded_buffer_witness :
    ∃ r, sendAndReadCallback decSpec "https://x/y" complOk =
        CallbackResult.resolved r ∧
      r.bodyText = decSpec [104, 105] ∧ r.text = decSpec [104, 105] :=
  c1_text_is_decoded_buffer decSpec "https://x/y" complOk [104, 105] rfl

/-- Claim C2 counterexample: the body value `0` is a number (neither a string
nor a byte sequence), yet the call does not reject — the `if (options.body)`
truthiness gate at line 39 skips falsy bodies, so the request is sent with no
body at all. -/
theorem c2_counterexample_falsy_number_body :
    fetchCall canParseSpec toUrlStringSpec encSpec decSpec
      (JSValue.vStr "https://x/y") ⟨none, none, some (JSValue.vNum 0)⟩ =
      FetchResult.sent ⟨"GET", "https://x/y", [], none⟩ := by decide

/-- Claim C2 (amended): for every TRUTHY body value that is neither a string
nor a byte sequence, the call rejects after the promise is constructed (never
as a synchronous throw — `FetchResult.rejected`, not `syncThrow`) with the
unsupported-body error naming the value's type and carrying the offending
value as its `cause`; falsy body values such as `0`, `false`, `null` and
`undefined` are instead treated as an absent body. -/
theorem c2_truthy_unsupported_body_rejects
    (canParse : JSValue → Bool) (toUrlString : JSValue → String)
    (enc : String → List Nat) (dec : List Nat → String)
    (url : JSValue) (opts : RequestInit) (b : JSValue)
    (hu : canParse url = true) (hb : opts.bodyOpt = some b)
    (ht : truthy b = true) (hs : isJsString b = false)
    (ha : isUint8Array b = false) :
    fetchCall canParse toUrlString enc dec url opts =
      FetchResult.rejected ⟨unsupportedBodyMessage (typeofJs b), some b⟩ := by
  unfold fetchCall
  rw [hb]
  cases b <;> simp_all [coerceBody, truthy, isJsString, isUint8Array]

/-- Claim C2 witness: a truthy plain-object body rejects with the error
carrying the object as cause. -/
theorem c2_truthy_unsupported_body_rejects_witness :
    fetchCall canParseSpec toUrlStringSpec encSpec decSpec
      (JSValue.vStr "https://x/y") ⟨none, none, some (JSValue.vObj 7)⟩ =
      FetchResult.rejected
        ⟨unsupportedBodyMessage (typeofJs (JSValue.vObj 7)),
          some (JSValue.vObj 7)⟩ :=
  c2_truthy_unsupported_body_rejects canParseSpec toUrlStringSpec encSpec
    decSpec (JSValue.vStr "https://x/y") ⟨none, none, some (JSValue.vObj 7)⟩
    (JSValue.vObj 7) (by decide) rfl rfl rfl rfl

/-- Claim C3 counterexample: the empty string is a string body, but both the
`if (options.body)` gate (line 39) and the `if (body)` gate (line 70) are
truthiness tests, so the request is sent with no body and in particular with
no `text/plain` content-type tag. -/
theorem c3_counterexample_empty_string_body :
    fetchCall canParseSpec toUrlStringSpec encSpec decSpec
      (JSValue.vStr "https://x/y") ⟨none, none, some (JSValue.vStr "")⟩ =
      FetchResult.sent ⟨"GET", "https://x/y", [], none⟩ := by decide

/-- Claim C3 (amended): for every NON-EMPTY string body the transmitted
request body is that string unchanged, UTF-8 encoded and tagged `text/plain`;
for every `Uint8Array` body whose UTF-8 decoding is non-empty the transmitted
body is that decoding (re-encoded), tagged `text/plain`.  An empty string
body, or a byte body whose decoding is empty, is transmitted with no body and
no content-type tag. -/
theorem c3_nonempty_body_utf8_text_plain
    (canParse : JSValue → Bool) (toUrlString : JSValue → String)
    (enc : String → List Nat) (dec : List Nat → String)
    (url : JSValue) (mo : Option String)
    (ho : Option (List (String × String)))
    (hu : canParse url = true) :
    (∀ s : String, s.isEmpty = false →
      ∃ msg, fetchCall canParse toUrlString enc dec url
            ⟨mo, ho, some (JSValue.vStr s)⟩ = FetchResult.sent msg ∧
        msg.requestBody = some ("text/plain", enc s)) ∧
    (∀ bs : List Nat, (dec bs).isEmpty = false →
      ∃ msg, fetchCall canParse toUrlString enc dec url
            ⟨mo, ho, some (JSValue.vBytes bs)⟩ = FetchResult.sent msg ∧
        msg.requestBody = some ("text/plain", enc (dec bs))) := by
  constructor
  · intro s hs
    unfold fetchCall
    simp [hu, coerceBody, truthy, hs, requestBodyOf]
  · intro bs hbs
    unfold fetchCall
    simp [hu, coerceBody, truthy, hbs, requestBodyOf]

/-- Claim C3 witness: the string body `"z"` is transmitted encoded and tagged
`text/plain`. -/
theorem c3_nonempty_body_utf8_text_plain_witness :
    ∃ msg, fetchCall canParseSpec toUrlStringSpec encSpec decSpec
        (JSValue.vStr "https://x/y") ⟨none, none, some (JSValue.vStr "z")⟩ =
        FetchResult.sent msg ∧
      msg.requestBody = some ("text/plain", encSpec "z") :=
  (c3_nonempty_body_utf8_text_plain canParseSpec toUrlStringSpec encSpec
    decSpec (JSValue.vStr "https://x/y") none none (by decide)).1 "z"
    (by decide)

/-- Claim C4 counterexample: two distinct unparseable URL values of the same
type produce the very same synchronous error (the message template of line 26
interpolates only `typeof url`), so the thrown error does not identify the
offending value. -/
theorem c4_counterexample_error_ignores_value :
    canParseSpec (JSValue.vStr "not a url") = false ∧
    canParseSpec (JSValue.vStr "nope") = false ∧
    JSValue.vStr "not a url" ≠ JSValue.vStr "nope" ∧
    fetchCall canParseSpec toUrlStringSpec encSpec decSpec
        (JSValue.vStr "not a url") ⟨none, none, none⟩ =
      fetchCall canParseSpec toUrlStringSpec encSpec decSpec
        (JSValue.vStr "nope") ⟨none, none, none⟩ := by decide

/-- Claim C4 (amended): for every url value failing the parse-check, the call
throws synchronously — before the promise is constructed
(`FetchResult.syncThrow`, distinct from any rejection) — with the invalid-URL
error identifying the value's actual type; the error does not carry the
offending value itself (its `cause` is empty and its message depends only on
the type). -/
theorem c4_invalid_url_throws_sync
    (canParse : JSValue → Bool) (toUrlString : JSValue → String)
    (enc : String → List Nat) (dec : List Nat → String)
    (url : JSValue) (opts : RequestInit) (hu : canParse url = false) :
    fetchCall canParse toUrlString enc dec url opts =
      FetchResult.syncThrow ⟨invalidUrlMessage (typeofJs url), none⟩ := by
  unfold fetchCall
  simp [hu]

/-- Claim C4 witness: the unparseable string `"not a url"` throws the
synchronous invalid-URL error naming the type `string`. -/
theorem c4_invalid_url_throws_sync_witness :
    fetchCall canParseSpec toUrlStringSpec encSpec decSpec
      (JSValue.vStr "not a url") ⟨none, none, none⟩ =
      FetchResult.syncThrow
        ⟨invalidUrlMessage (typeofJs (JSValue.vStr "not a url")), none⟩ :=
  c4_invalid_url_throws_sync canParseSpec toUrlStringSpec encSpec decSpec
    (JSValue.vStr "not a url") ⟨none, none, none⟩ (by decide)

end FetchGjs

namespace FetchGjs

/-- Claim C5: for every resolved response view, `ok` holds exactly when
`200 <= status_code < 300` (line 100); in particular it is false at 404 and
true at 204, which are the instances of the equivalence at
`c.statusCode = 404` and `c.statusCode = 204`. -/
theorem c5_ok_iff_2xx (dec : List Nat → String) (urlString : String)
    (c : Completion) (bv : Option (Option (List Nat)))
    (h : c.finish = Except.ok bv) :
    ∃ r, sendAndReadCallback dec urlString c = CallbackResult.resolved r ∧
      (r.ok = true ↔ 200 ≤ c.statusCode ∧ c.statusCode < 300) := by
  unfold sendAndReadCallback
  rw [h]
  exact ⟨_, rfl, by simp⟩

/-- Claim C5 witness: a concrete 404 completion resolves with the 2xx
equivalence (hence `ok` is false there). -/
theorem c5_ok_iff_2xx_witness :
    ∃ r, sendAndReadCallback decSpec "u" complNull =
        CallbackResult.resolved r ∧
      (r.ok = true ↔ 200 ≤ complNull.statusCode ∧
        complNull.statusCode < 300) :=
  c5_ok_iff_2xx decSpec "u" complNull none rfl

/-- Claim C6: `json()` is exactly the host `JSON.parse` applied to `text()`'s
result, and both accessors are pure reads of the single buffered
`bodyText` field, so repeated calls return equal results by definition. -/
theorem c6_json_is_parse_of_text (r : ResponseView)
    (jsonParse : String → Except JsError JSValue) :
    r.json jsonParse = jsonParse r.text ∧
    r.text = r.bodyText ∧
    r.json jsonParse = jsonParse r.bodyText :=
  ⟨rfl, rfl, rfl⟩

/-- Claim C7: when a header entry list is supplied and the request is sent,
the outgoing `request_headers` collection is exactly that list — every entry
present, appended (never overwritten) in the mapping's entry order,
duplicates included (lines 66–68). -/
theorem c7_headers_appended_in_order
    (canParse : JSValue → Bool) (toUrlString : JSValue → String)
    (enc : String → List Nat) (dec : List Nat → String)
    (url : JSValue) (opts : RequestInit) (hdrs : List (String × String))
    (msg : SoupMessage) (hh : opts.headersOpt = some hdrs)
    (hsent : fetchCall canParse toUrlString enc dec url opts =
      FetchResult.sent msg) :
    msg.requestHeaders = hdrs := by
  unfold fetchCall at hsent
  split at hsent
  · cases hcb : coerceBody dec (opts.bodyOpt.getD JSValue.vUndefined) with
    | error e => rw [hcb] at hsent; cases hsent
    | ok body =>
        rw [hcb] at hsent
        cases hsent
        rw [hh]
        simp [entriesOf, appendAll_eq]
  · cases hsent

/-- Claim C7 witness: a duplicate-key entry list ends up appended verbatim,
in order, on the sent message. -/
theorem c7_headers_appended_in_order_witness :
    (SoupMessage.mk "GET" "https://x/y" [("x", "1"), ("x", "2")]
        none).requestHeaders = [("x", "1"), ("x", "2")] :=
  c7_headers_appended_in_order canParseSpec toUrlStringSpec encSpec decSpec
    (JSValue.vStr "https://x/y") ⟨none, some [("x", "1"), ("x", "2")], none⟩
    [("x", "1"), ("x", "2")]
    ⟨"GET", "https://x/y", [("x", "1"), ("x", "2")], none⟩ rfl (by decide)

/-- Claim C8: when `send_and_read_finish` raises inside the completion
callback (a transport failure), the catch of lines 129–131 rejects the
promise with that very error, unchanged — no translation, wrapping or
classification. -/
theorem c8_transport_error_propagated (dec : List Nat → String)
    (urlString : String) (c : Completion) (e : JsError)
    (h : c.finish = Except.error e) :
    sendAndReadCallback dec urlString c = CallbackResult.rejectedWith e := by
  unfold sendAndReadCallback
  rw [h]

/-- Claim C8 witness: a concrete transport error is propagated unchanged. -/
theorem c8_transport_error_propagated_witness :
    sendAndReadCallback decSpec "u" complErr =
      CallbackResult.rejectedWith ⟨"transport failure", none⟩ :=
  c8_transport_error_propagated decSpec "u" complErr
    ⟨"transport failure", none⟩ rfl

/-- Claim C9: `clone()` (line 119) returns the very same response — in the
model the clone is definitionally the original view, so every observation
through the clone (body text, status, any field) equals the same observation
through the original. -/
theorem c9_clone_is_same_response (r : ResponseView) :
    r.clone = r ∧ r.clone.text = r.text ∧ r.clone.status = r.status ∧
      r.clone.bodyText = r.bodyText :=
  ⟨rfl, rfl, rfl, rfl⟩

/-- Claim C10: a null byte buffer (`bytes` null) or a buffer with no data
(`get_data()` null) still resolves, with the buffered body text equal to the
empty string (`?? ""` at line 87). -/
theorem c10_null_or_empty_buffer_resolves_empty (dec : List Nat → String)
    (urlString : String) (c : Completion)
    (h : c.finish = Except.ok none ∨ c.finish = Except.ok (some none)) :
    ∃ r, sendAndReadCallback dec urlString c = CallbackResult.resolved r ∧
      r.bodyText = "" ∧ r.text = "" := by
  unfold sendAndReadCallback
  rcases h with h | h <;> rw [h] <;> exact ⟨_, rfl, rfl, rfl⟩

/-- Claim C10 witness: a concrete null-buffer completion resolves with empty
body text. -/
theorem c10_null_or_empty_buffer_resolves_empty_witness :
    ∃ r, sendAndReadCallback decSpec "u" complNull =
        CallbackResult.resolved r ∧
      r.bodyText = "" ∧ r.text = "" :=
  c10_null_or_empty_buffer_resolves_empty decSpec "u" complNull (Or.inl rfl)

end FetchGjs
